import Mathlib

/-!
# Verification of the logiparse extraction/validation pipeline

Shallow embedding of `src/extractor.py` (the deterministic extraction and
validation pipeline of the logiparse repository) and proofs of the spec
claims about it.

Modelling conventions:
* Python `None`-able string fields become `Option String`; Python truthiness
  (`if not data[...]`, which treats both `None` and `""` as false) is the
  `truthy` predicate below.
* Python `float(...)` applied to the decimal strings handled by this program
  is modelled as exact parsing into `ℚ` (`parseFloat`).  The model covers the
  decimal-literal fragment of `float` (optional surrounding whitespace,
  optional sign, digits with an optional point, optional exponent); the
  idealization drops binary floating point rounding, `inf`/`nan` and digit
  underscores, none of which the claims depend on.
* Python `float(...)` applied to an `int` (the line-item quantity) raises an
  uncaught `OverflowError` beyond the double range; this error path is
  modelled explicitly (`floatOfInt`, `lineItemCheckE`,
  `validate_extracted_dataE`, `process_invoiceE`), and the total validator
  is proved to be its projection to records whose quantities are in range
  (`validateE_of_inRange`).
* Python `re` pattern matching is modelled by a small backtracking regex
  engine (`mre`) with Python's leftmost-first / greedy semantics, defined
  further below for `parse_invoice`.
-/

/- `Rat.add/sub/mul/inv/ofScientific` are `@[irreducible]` in Batteries, which
blocks `decide`-style kernel evaluation of the exact-rational arithmetic in
this model; restore the default reducibility (the kernel itself always
unfolds them anyway). -/
set_option allowUnsafeReducibility true in
attribute [semireducible] Rat.add Rat.sub Rat.mul Rat.inv Rat.ofScientific

/-- Python truthiness of an optional string: `None` and `""` are falsy.
Mirrors the `if not data["..."]` tests in `validate_extracted_data`. -/
def truthy : Option String → Bool
  | none => false
  | some s => s != ""

/-- Python whitespace characters recognised by `str.strip()` / `float()`
(ASCII fragment; unicode whitespace idealized away). -/
def pyWs (c : Char) : Bool :=
  c == ' ' || c == '\t' || c == '\n' || c == '\r' || c == '\x0b' || c == '\x0c'

/-- Python `str.strip()` on a character list. -/
def pyStrip (l : List Char) : List Char :=
  ((l.dropWhile pyWs).reverse.dropWhile pyWs).reverse

/-- Scan a maximal run of ASCII digits, accumulating its value and length.
Returns `(value, number-of-digits, rest)`. -/
def digitsAux : Nat → Nat → List Char → Nat × Nat × List Char
  | acc, n, [] => (acc, n, [])
  | acc, n, c :: t =>
    if c.isDigit then digitsAux (acc * 10 + (c.toNat - 48)) (n + 1) t
    else (acc, n, c :: t)

/-- Mantissa of a Python float literal: `D+`, `D+.D*` or `D*.D+`
(at least one digit overall).  Returns the value and the unconsumed rest. -/
def parseMantissa (cs : List Char) : Option (ℚ × List Char) :=
  let (ip, ni, r1) := digitsAux 0 0 cs
  match r1 with
  | '.' :: r2 =>
    let (fp, nf, r3) := digitsAux 0 0 r2
    if ni + nf == 0 then none
    else some ((ip : ℚ) + (fp : ℚ) / ((10 : ℚ) ^ nf), r3)
  | r => if ni == 0 then none else some ((ip : ℚ), r)

/-- Exponent part of a Python float literal (after the `e`/`E`):
optional sign then at least one digit, consuming the whole rest. -/
def parseExpPart (cs : List Char) : Option Int :=
  let p : Int × List Char :=
    match cs with
    | '+' :: t => (1, t)
    | '-' :: t => (-1, t)
    | t => (1, t)
  let (v, n, r) := digitsAux 0 0 p.2
  if n == 0 || !r.isEmpty then none else some (p.1 * (v : Int))

/-- Model of Python `float(s)` on the decimal-literal fragment, as an exact
rational.  `none` models a `ValueError`. -/
def parseFloat (s : String) : Option ℚ :=
  let cs := pyStrip s.data
  let p : ℚ × List Char :=
    match cs with
    | '+' :: t => (1, t)
    | '-' :: t => (-1, t)
    | t => (1, t)
  match parseMantissa p.2 with
  | none => none
  | some (m, rest) =>
    match rest with
    | [] => some (p.1 * m)
    | 'e' :: t => (parseExpPart t).map fun ex => p.1 * m * (10 : ℚ) ^ ex
    | 'E' :: t => (parseExpPart t).map fun ex => p.1 * m * (10 : ℚ) ^ ex
    | _ => none

/-- Two-digit zero padding. -/
def pad2 (n : Nat) : String := if n < 10 then "0" ++ toString n else toString n

/-- Two-decimal formatting of a rational, modelling Python's `f"{x:.2f}"`. -/
def fmt2 (q : ℚ) : String :=
  let n : Int := round (|q| * 100)
  (if q < 0 then "-" else "") ++ toString (n / 100) ++ "." ++ pad2 (n % 100).toNat

/-- One line item of an extracted record: the shape built by `parse_invoice`
(`description`/`quantity`/`unit_price`/`line_total`). -/
structure LineItem where
  description : String
  quantity : Int
  unit_price : String
  line_total : String
deriving DecidableEq

/-- The structured result of extraction (`parse_invoice`'s result dict). -/
structure ExtractedRecord where
  invoice_number : Option String
  date : Option String
  sender : Option String
  receiver : Option String
  total_weight : Option String
  total_amount : Option String
  currency : Option String
  items : List LineItem
  tracking_number : Option String
  raw_text_preview : String
deriving DecidableEq

/-- The validation report returned by `validate_extracted_data`. -/
structure ValidationReport where
  status : String
  issues : List String
  warnings : List String
  field_coverage : String
deriving DecidableEq

deriving instance DecidableEq for Except

/-- The invoice-number check of `validate_extracted_data`. -/
def invoiceIssues (d : ExtractedRecord) : List String :=
  if truthy d.invoice_number then [] else ["❌ Invoice number not found"]

/-- The total-amount check of `validate_extracted_data`: missing/empty value
is an issue; otherwise `float` parsing decides between the zero-or-negative
issue, the not-a-valid-number issue, or no issue. -/
def amountIssues (o : Option String) : List String :=
  if truthy o then
    match o with
    | some s =>
      match parseFloat s with
      | some v =>
        if v ≤ 0 then ["❌ Total amount is zero or negative — suspicious"] else []
      | none => ["❌ Total amount is not a valid number"]
    | none => []
  else ["❌ Total amount not found"]

/-- The per-line-item arithmetic check of `validate_extracted_data`,
restricted to quantities inside the double range: with both numeric strings
parseable, an issue is produced exactly when
`|quantity * unit_price - line_total| > 0.5`; a `ValueError` on the string
fields is silently skipped (the `except` branch of the loop).  For
quantities beyond the double range `float(item["quantity"])` raises an
uncaught `OverflowError` instead — see `lineItemCheckE` below for the
exception-aware model, of which this function is the in-range projection
(`lineItemCheckE_of_inRange`). -/
def lineItemIssue (item : LineItem) : Option String :=
  match parseFloat item.unit_price, parseFloat item.line_total with
  | some up, some lt =>
    let comp : ℚ := (item.quantity : ℚ) * up
    if |comp - lt| > 1 / 2 then
      some ("❌ Line item '" ++ item.description ++ "': Qty × UnitPrice ("
        ++ fmt2 comp ++ ") ≠ LineTotal (" ++ fmt2 lt ++ ")")
    else none
  | _, _ => none

/-- All line-item issues, in item order. -/
def itemIssues (d : ExtractedRecord) : List String :=
  d.items.filterMap lineItemIssue

/-- The warnings produced by `validate_extracted_data`, in source order. -/
def warningList (d : ExtractedRecord) : List String :=
  (if truthy d.date then []
   else ["⚠️  Date not detected — may be missing or in unusual format"])
  ++ (if truthy d.sender then [] else ["⚠️  Sender/Shipper not found"])
  ++ (if truthy d.receiver then [] else ["⚠️  Receiver/Consignee not found"])

/-- The `field_coverage` numerator: the count of truthy values among the five
key fields, mirroring `sum(1 for v in [...] if v)`. -/
def keyFieldCount (d : ExtractedRecord) : Nat :=
  [d.invoice_number, d.date, d.sender, d.receiver, d.total_amount].countP
    (fun v => truthy v)

/-- `validate_extracted_data` from `src/extractor.py`: issues in source order
(invoice number, total amount, line items), warnings (date, sender,
receiver), status from issue emptiness, and the coverage string. -/
def validate_extracted_data (d : ExtractedRecord) : ValidationReport :=
  let issues := invoiceIssues d ++ amountIssues d.total_amount ++ itemIssues d
  { status := if issues.isEmpty then "PASS ✅" else "FAIL ❌"
    issues := issues
    warnings := warningList d
    field_coverage := toString (keyFieldCount d) ++ "/5 key fields extracted" }

/-- The all-`None` record (with a given preview) that the delegated strategy
substitutes on failure. -/
def allNullRecord (preview : String) : ExtractedRecord :=
  { invoice_number := none, date := none, sender := none, receiver := none
    total_weight := none, total_amount := none, currency := none
    items := [], tracking_number := none, raw_text_preview := preview }

/-- Modelled from the spec: the delegated (AI) extraction strategy is not in
`src/` (only the deterministic extractor is); per spec §4.2/§7, any failure
(transport error, non-JSON response, missing keys, internal exception) is
caught and converted to an all-null `ExtractedRecord` carrying a descriptive
preview, and extraction never raises past this boundary.  The failure modes
are folded into the `Except.error` case. -/
def delegated_extract (response : Except String ExtractedRecord)
    (describe : String → String) : ExtractedRecord :=
  match response with
  | Except.ok r => r
  | Except.error e => allNullRecord (describe e)

/-!
## A backtracking regex engine

`mre` interprets a pattern over a character list with Python `re` semantics:
alternatives are tried left to right, repetition is greedy, and failure
backtracks through the continuation.  The `Nat` fuel only bounds recursion
depth; every pattern used below consumes at least one character per
repetition step, so a fuel of `input length + 2000` is never exhausted. -/

/-- Regex abstract syntax: empty word, single-character class, sequencing,
prioritized alternation, greedy Kleene star, and capture groups. -/
inductive RE where
  | eps : RE
  | cls : (Char → Bool) → RE
  | seq : RE → RE → RE
  | alt : RE → RE → RE
  | star : RE → RE
  | grp : Nat → RE → RE

/-- Capture environment: group index paired with the captured characters,
most recent first. -/
abbrev Caps := List (Nat × List Char)

/-- The matcher.  `k` is the success continuation receiving the unconsumed
input and captures; returning `none` from a branch triggers backtracking. -/
def mre : Nat → RE → List Char → Caps →
    (List Char → Caps → Option (Caps × List Char)) → Option (Caps × List Char)
  | 0, _, _, _, _ => none
  | _ + 1, RE.eps, s, caps, k => k s caps
  | _ + 1, RE.cls p, s, caps, k =>
    match s with
    | [] => none
    | c :: t => if p c then k t caps else none
  | fuel + 1, RE.seq a b, s, caps, k =>
    mre fuel a s caps fun s' caps' => mre fuel b s' caps' k
  | fuel + 1, RE.alt a b, s, caps, k =>
    match mre fuel a s caps k with
    | some res => some res
    | none => mre fuel b s caps k
  | fuel + 1, RE.star a, s, caps, k =>
    match mre fuel a s caps (fun s' caps' => mre fuel (RE.star a) s' caps' k) with
    | some res => some res
    | none => k s caps
  | fuel + 1, RE.grp n a, s, caps, k =>
    mre fuel a s caps fun s' caps' =>
      k s' ((n, s.take (s.length - s'.length)) :: caps')

/-- Model of `re.search`: try a match at each start position from the left;
report the captures and the input rest after the match end. -/
def reSearch (fuel : Nat) (r : RE) : List Char → Option (Caps × List Char)
  | [] => mre fuel r [] [] fun rest caps => some (caps, rest)
  | c :: t =>
    match mre fuel r (c :: t) [] (fun rest caps => some (caps, rest)) with
    | some res => some res
    | none => reSearch fuel r t

/-- Model of `re.findall`: repeated non-overlapping leftmost search, resuming
at each match end.  The outer `Nat` bounds iterations (every match here
consumes at least one character). -/
def findAllAux (r : RE) (fuel : Nat) : Nat → List Char → List Caps
  | 0, _ => []
  | n + 1, s =>
    match reSearch fuel r s with
    | none => []
    | some (caps, rest) =>
      caps :: (if rest.length < s.length then findAllAux r fuel n rest else [])

/-- All matches of `r` in `s`, as capture environments in match order. -/
def findAll (r : RE) (fuel : Nat) (s : List Char) : List Caps :=
  findAllAux r fuel (s.length + 1) s

/-- Look up a capture group (`None` when the group did not participate in
the match); the most recent capture wins, as in Python. -/
def capLookup (n : Nat) (caps : Caps) : Option (List Char) :=
  (caps.find? (fun p => p.1 == n)).map (fun p => p.2)

/-- Prioritized alternation of a non-empty list, left to right. -/
def altL : List RE → RE
  | [] => RE.eps
  | [r] => r
  | r :: rs => RE.alt r (altL rs)

/-- Sequencing of a list of patterns. -/
def catL : List RE → RE
  | [] => RE.eps
  | r :: rs => RE.seq r (catL rs)

/-- Greedy `?`. -/
def optRE (r : RE) : RE := RE.alt r RE.eps

/-- Greedy `+`. -/
def plusRE (r : RE) : RE := RE.seq r (RE.star r)

/-- Greedy `{0,n}`. -/
def repUpTo (r : RE) : Nat → RE
  | 0 => RE.eps
  | n + 1 => RE.alt (RE.seq r (repUpTo r n)) RE.eps

/-- Greedy `{min,min+extra}`. -/
def repRange (r : RE) : Nat → Nat → RE
  | 0, extra => repUpTo r extra
  | m + 1, extra => RE.seq r (repRange r m extra)

/-- Single case-sensitive literal character. -/
def chr (c : Char) : RE := RE.cls (fun x => x == c)

/-- A character matching either of two concrete characters (used for
`re.IGNORECASE` literals, given as the lower/upper-case pair). -/
def ci2 (a b : Char) : RE := RE.cls (fun x => x == a || x == b)

/-- Case-insensitive literal word, given in both cases (ASCII `IGNORECASE`
idealization of Python's unicode case folding). -/
def ciStr (lo up : String) : RE :=
  catL ((lo.data.zip up.data).map fun p => RE.cls (fun c => c == p.1 || c == p.2))

/-- ASCII uppercase letter. -/
def asciiUpperB (c : Char) : Bool := 65 ≤ c.toNat && c.toNat ≤ 90

/-- ASCII lowercase letter. -/
def asciiLowerB (c : Char) : Bool := 97 ≤ c.toNat && c.toNat ≤ 122

/-- ASCII letter (`[A-Za-z]`, and `[A-Z]` under `IGNORECASE`). -/
def asciiAlphaB (c : Char) : Bool := asciiUpperB c || asciiLowerB c

/-- `\s` (ASCII fragment). -/
def wsRE : RE := RE.cls pyWs

/-- `[:\s]`. -/
def wsColonRE : RE := RE.cls (fun c => c == ':' || pyWs c)

/-- `[:\s#]`. -/
def wsColonHashRE : RE := RE.cls (fun c => c == ':' || c == '#' || pyWs c)

/-- `\d`. -/
def digitRE : RE := RE.cls Char.isDigit

/-- `[\d,\.]` (ASCII digits). -/
def numCharRE : RE := RE.cls (fun c => c.isDigit || c == ',' || c == '.')

/-- `[A-Z0-9\-\/]` under `IGNORECASE`. -/
def invCharRE : RE := RE.cls (fun c => asciiAlphaB c || c.isDigit || c == '-' || c == '/')

/-- `[A-Z0-9\-]` under `IGNORECASE`. -/
def trkCharRE : RE := RE.cls (fun c => asciiAlphaB c || c.isDigit || c == '-')

/-- `[^\n,]`. -/
def notNlCommaRE : RE := RE.cls (fun c => !(c == '\n' || c == ','))

/-- `[A-Za-z0-9\s\-]` (the line-item description class; case-sensitive). -/
def itemCharRE : RE := RE.cls (fun c => asciiAlphaB c || c.isDigit || pyWs c || c == '-')

/-- `[\/\-\.]` (date separators). -/
def dateSepRE : RE := RE.cls (fun c => c == '/' || c == '-' || c == '.')

/-- `\w` (ASCII fragment). -/
def wordCharRE : RE := RE.cls (fun c => asciiAlphaB c || c.isDigit || c == '_')

/-- `(?:invoice\s*(?:no\.?|number|#|num)[:\s#]+)([A-Z0-9\-\/]+)`, IGNORECASE. -/
def invoiceRE : RE :=
  catL [ciStr "invoice" "INVOICE", RE.star wsRE,
    altL [RE.seq (ciStr "no" "NO") (optRE (chr '.')), ciStr "number" "NUMBER",
      chr '#', ciStr "num" "NUM"],
    plusRE wsColonHashRE, RE.grp 1 (plusRE invCharRE)]

/-- `(?:date|dated|issued)[:\s]*(numeric D/M/Y | ISO Y/M/D | month-name)`,
IGNORECASE. -/
def dateRE : RE :=
  catL [altL [ciStr "date" "DATE", ciStr "dated" "DATED", ciStr "issued" "ISSUED"],
    RE.star wsColonRE,
    RE.grp 1 (altL [
      catL [repRange digitRE 1 1, dateSepRE, repRange digitRE 1 1, dateSepRE,
        repRange digitRE 2 2],
      catL [repRange digitRE 4 0, dateSepRE, repRange digitRE 1 1, dateSepRE,
        repRange digitRE 1 1],
      catL [altL [ciStr "jan" "JAN", ciStr "feb" "FEB", ciStr "mar" "MAR",
          ciStr "apr" "APR", ciStr "may" "MAY", ciStr "jun" "JUN",
          ciStr "jul" "JUL", ciStr "aug" "AUG", ciStr "sep" "SEP",
          ciStr "oct" "OCT", ciStr "nov" "NOV", ciStr "dec" "DEC"],
        RE.star wordCharRE, plusRE wsRE, repRange digitRE 1 1,
        optRE (chr ','), plusRE wsRE, repRange digitRE 4 0]])]

/-- `(?:from|sender|shipper|consignor)[:\s]+([^\n,]+)`, IGNORECASE. -/
def senderRE : RE :=
  catL [altL [ciStr "from" "FROM", ciStr "sender" "SENDER",
      ciStr "shipper" "SHIPPER", ciStr "consignor" "CONSIGNOR"],
    plusRE wsColonRE, RE.grp 1 (plusRE notNlCommaRE)]

/-- `(?:to|receiver|recipient|consignee|billed\s+to|deliver\s+to)[:\s]+([^\n,]+)`,
IGNORECASE. -/
def receiverRE : RE :=
  catL [altL [ciStr "to" "TO", ciStr "receiver" "RECEIVER",
      ciStr "recipient" "RECIPIENT", ciStr "consignee" "CONSIGNEE",
      catL [ciStr "billed" "BILLED", plusRE wsRE, ciStr "to" "TO"],
      catL [ciStr "deliver" "DELIVER", plusRE wsRE, ciStr "to" "TO"]],
    plusRE wsColonRE, RE.grp 1 (plusRE notNlCommaRE)]

/-- `(?:total\s+)?weight[:\s]*([\d,\.]+)\s*(kg|lbs?|g|tons?)?`, IGNORECASE. -/
def weightRE : RE :=
  catL [optRE (RE.seq (ciStr "total" "TOTAL") (plusRE wsRE)),
    ciStr "weight" "WEIGHT", RE.star wsColonRE, RE.grp 1 (plusRE numCharRE),
    RE.star wsRE,
    optRE (RE.grp 2 (altL [ciStr "kg" "KG",
      RE.seq (ciStr "lb" "LB") (optRE (ci2 's' 'S')), ci2 'g' 'G',
      RE.seq (ciStr "ton" "TON") (optRE (ci2 's' 'S'))]))]

/-- `(?:total|grand\s+total|amount\s+due|total\s+amount)[:\s]*`
`(PHP|₱|\$|USD|EUR)?\s*([\d,\.]+)`, IGNORECASE. -/
def amountRE : RE :=
  catL [altL [ciStr "total" "TOTAL",
      catL [ciStr "grand" "GRAND", plusRE wsRE, ciStr "total" "TOTAL"],
      catL [ciStr "amount" "AMOUNT", plusRE wsRE, ciStr "due" "DUE"],
      catL [ciStr "total" "TOTAL", plusRE wsRE, ciStr "amount" "AMOUNT"]],
    RE.star wsColonRE,
    optRE (RE.grp 1 (altL [ciStr "php" "PHP", chr '₱', chr '$',
      ciStr "usd" "USD", ciStr "eur" "EUR"])),
    RE.star wsRE, RE.grp 2 (plusRE numCharRE)]

/-- `(?:tracking\s*(?:no|number|#)|waybill\s*(?:no|number|#))[:\s#]*([A-Z0-9\-]+)`,
IGNORECASE. -/
def trackingRE : RE :=
  catL [altL [
      catL [ciStr "tracking" "TRACKING", RE.star wsRE,
        altL [ciStr "no" "NO", ciStr "number" "NUMBER", chr '#']],
      catL [ciStr "waybill" "WAYBILL", RE.star wsRE,
        altL [ciStr "no" "NO", ciStr "number" "NUMBER", chr '#']]],
    RE.star wsColonHashRE, RE.grp 1 (plusRE trkCharRE)]

/-- `([A-Za-z][A-Za-z0-9\s\-]{2,30})\s+(\d+)\s+([\d,\.]+)\s+([\d,\.]+)`
(the line-item pattern; no IGNORECASE flag in the source). -/
def itemRE : RE :=
  catL [RE.grp 1 (RE.seq (RE.cls asciiAlphaB) (repRange itemCharRE 2 28)),
    plusRE wsRE, RE.grp 2 (plusRE digitRE), plusRE wsRE,
    RE.grp 3 (plusRE numCharRE), plusRE wsRE, RE.grp 4 (plusRE numCharRE)]

/-- `int()` on a digit string (the `\d+` quantity capture). -/
def digitsToInt (l : List Char) : Int :=
  Int.ofNat (l.foldl (fun a c => a * 10 + (c.toNat - 48)) 0)

/-- `parse_invoice` from `src/extractor.py`: one independent leftmost search
per field, first match wins; unmatched fields stay `none`; the weight unit
defaults to `"kg"` and the currency to `"PHP"`; thousands separators are
stripped from amounts and line items; items are capped at 10; the raw-text
preview is the first 300 characters plus `"..."` when the text is longer
than 300 characters, else the whole text. -/
def parse_invoice (text : String) : ExtractedRecord :=
  let s := text.data
  let fuel := s.length + 2000
  let inv := (reSearch fuel invoiceRE s).bind fun m =>
    (capLookup 1 m.1).map fun g => String.mk (pyStrip g)
  let date := (reSearch fuel dateRE s).bind fun m =>
    (capLookup 1 m.1).map fun g => String.mk (pyStrip g)
  let sender := (reSearch fuel senderRE s).bind fun m =>
    (capLookup 1 m.1).map fun g => String.mk (pyStrip g)
  let receiver := (reSearch fuel receiverRE s).bind fun m =>
    (capLookup 1 m.1).map fun g => String.mk (pyStrip g)
  let weight := (reSearch fuel weightRE s).bind fun m =>
    (capLookup 1 m.1).map fun g =>
      String.mk (pyStrip g) ++ " " ++
        (match capLookup 2 m.1 with
         | some u => String.mk u
         | none => "kg")
  let amt := reSearch fuel amountRE s
  let currency := amt.map fun m =>
    match capLookup 1 m.1 with
    | some c => String.mk c
    | none => "PHP"
  let total_amount := amt.bind fun m =>
    (capLookup 2 m.1).map fun g =>
      String.mk (pyStrip (g.filter (fun c => c != ',')))
  let tracking := (reSearch fuel trackingRE s).bind fun m =>
    (capLookup 1 m.1).map fun g => String.mk (pyStrip g)
  let items := ((findAll itemRE fuel s).take 10).map fun caps =>
    { description := String.mk (pyStrip ((capLookup 1 caps).getD []))
      quantity := digitsToInt ((capLookup 2 caps).getD [])
      unit_price := String.mk (((capLookup 3 caps).getD []).filter (fun c => c != ','))
      line_total := String.mk (((capLookup 4 caps).getD []).filter (fun c => c != ','))
      : LineItem }
  { invoice_number := inv, date := date, sender := sender, receiver := receiver
    total_weight := weight, total_amount := total_amount, currency := currency
    items := items, tracking_number := tracking
    raw_text_preview :=
      if text.length > 300 then String.mk (text.data.take 300) ++ "..." else text }

/-- Pipeline metadata (`processed_at` timestamp and declared source kind). -/
structure Metadata where
  processed_at : String
  source_type : String
deriving DecidableEq

/-- The result envelope returned by `process_invoice`. -/
structure ResultEnvelope where
  metadata : Metadata
  extracted_data : ExtractedRecord
  validation_report : ValidationReport
deriving DecidableEq

/-- `process_invoice` from `src/extractor.py`.  PDF text extraction (an
external PyMuPDF call) is abstracted as the `read_pdf` argument, and the
wall clock read at envelope construction as the `now` argument. -/
def process_invoice (read_pdf : String → String) (source : String)
    (is_pdf : Bool) (now : String) : ResultEnvelope :=
  let raw_text := if is_pdf then read_pdf source else source
  let parsed := parse_invoice raw_text
  let validation := validate_extracted_data parsed
  { metadata := { processed_at := now
                  source_type := if is_pdf then "PDF" else "Text" }
    extracted_data := parsed
    validation_report := validation }

/-!
## The exception path of the validator

`float(item["quantity"])` in `validate_extracted_data` converts a Python
`int` to a double.  For magnitudes at or beyond the double range CPython
raises `OverflowError` ("int too large to convert to float"), and the
surrounding `except (ValueError, KeyError)` does NOT catch it, so the
exception escapes `validate_extracted_data` and `process_invoice`.  Such a
quantity is reachable from plain text input: the item pattern's `(\d+)`
group is unbounded, so a 350-digit quantity column produces it.  The
definitions below model this error path with `Except`; the total
`validate_extracted_data` above is its no-overflow projection
(`validateE_of_inRange` below makes that precise). -/

/-- The smallest integer magnitude on which CPython `float(int)` raises
`OverflowError`: values at or above `2^1024 - 2^970` round to infinity
(the largest finite double is `2^1024 - 2^971`). -/
def floatOverflowBound : Int := ((2 ^ 1024 - 2 ^ 970 : Nat) : Int)

/-- Model of CPython `float()` on an `int`: exact in range (the declared
rational idealization), `OverflowError` for out-of-range magnitudes. -/
def floatOfInt (n : Int) : Except String ℚ :=
  if floatOverflowBound ≤ |n| then
    Except.error "OverflowError: int too large to convert to float"
  else Except.ok (n : ℚ)

/-- The per-line-item check of `validate_extracted_data` with its exception
path: `float(item["quantity"])` runs first and its `OverflowError`
propagates uncaught (`Except.error`); a `ValueError` from the two string
fields is caught by `except (ValueError, KeyError)` and the item silently
skipped (`Except.ok none`); otherwise the arithmetic check may produce an
issue. -/
def lineItemCheckE (item : LineItem) : Except String (Option String) :=
  match floatOfInt item.quantity with
  | Except.error e => Except.error e
  | Except.ok q =>
    match parseFloat item.unit_price, parseFloat item.line_total with
    | some up, some lt =>
      Except.ok (if |q * up - lt| > 1 / 2 then
        some ("❌ Line item '" ++ item.description ++ "': Qty × UnitPrice ("
          ++ fmt2 (q * up) ++ ") ≠ LineTotal (" ++ fmt2 lt ++ ")")
      else none)
    | _, _ => Except.ok none

/-- The line-item loop with its exception path: the first uncaught
`OverflowError` aborts the loop (and the whole validation). -/
def itemIssuesE : List LineItem → Except String (List String)
  | [] => Except.ok []
  | it :: rest =>
    match lineItemCheckE it with
    | Except.error e => Except.error e
    | Except.ok none => itemIssuesE rest
    | Except.ok (some s) => (itemIssuesE rest).map fun l => s :: l

/-- `validate_extracted_data` with its exception path: an uncaught
`OverflowError` from the line-item loop escapes; otherwise the report of
the total model is produced. -/
def validate_extracted_dataE (d : ExtractedRecord) : Except String ValidationReport :=
  match itemIssuesE d.items with
  | Except.error e => Except.error e
  | Except.ok itIss =>
    let issues := invoiceIssues d ++ amountIssues d.total_amount ++ itIss
    Except.ok
      { status := if issues.isEmpty then "PASS ✅" else "FAIL ❌"
        issues := issues
        warnings := warningList d
        field_coverage := toString (keyFieldCount d) ++ "/5 key fields extracted" }

/-- `process_invoice` with the validator's exception path: the uncaught
`OverflowError` escapes the pipeline, which then returns no envelope. -/
def process_invoiceE (read_pdf : String → String) (source : String)
    (is_pdf : Bool) (now : String) : Except String ResultEnvelope :=
  let raw_text := if is_pdf then read_pdf source else source
  let parsed := parse_invoice raw_text
  (validate_extracted_dataE parsed).map fun validation =>
    { metadata := { processed_at := now
                    source_type := if is_pdf then "PDF" else "Text" }
      extracted_data := parsed
      validation_report := validation }

/-- A text input whose single parsed line item has a 350-digit quantity:
the item pattern's description class takes "bc", `(\d+)` takes all 350
digits, and the two decimal columns are "1" and "1". -/
def overflowText : String := "Abc " ++ String.mk (List.replicate 350 '9') ++ " 1 1"

/-- The demo invoice text of `src/extractor.py` (`sample_invoice` in the
`__main__` block), verbatim including its triple-quote indentation. -/
def sample_invoice : String :=
  "\n    LOGISTICS INVOICE\n    Invoice No: INV-2024-00892\n    Date: February 20, 2024\n    Tracking No: TRK-PH-44821\n\n    From: ABC Warehousing Corp., Mandaue City, Cebu\n    To: XYZ Retail Store, Makati City, Metro Manila\n\n    Items:\n    Industrial Fan Motor     2    1500.00    3000.00\n    Conveyor Belt Segment    5     800.00    4000.00\n    Safety Gloves (box)     10     250.00    2500.00\n\n    Total Weight: 45.5 kg\n    Total Amount: PHP 9,500.00\n    "

/-! ## Helper lemmas -/

theorem validate_issues_decomp (d : ExtractedRecord) :
    (validate_extracted_data d).issues
      = invoiceIssues d ++ amountIssues d.total_amount ++ itemIssues d := rfl

theorem validate_status_eq (d : ExtractedRecord) :
    (validate_extracted_data d).status
      = if (validate_extracted_data d).issues.isEmpty then "PASS ✅" else "FAIL ❌" := rfl

theorem itemIssue_chain_take3 (r₁ r₂ r₃ : String) :
    ("❌ Line item '" ++ r₁ ++ "': Qty × UnitPrice (" ++ r₂ ++ ") ≠ LineTotal ("
      ++ r₃ ++ ")").data.take 3 = ['❌', ' ', 'L'] := by
  simp only [String.data_append, List.append_assoc, List.cons_append]
  rfl

theorem lineItemIssue_take3 (it : LineItem) (s : String)
    (h : lineItemIssue it = some s) : s.data.take 3 = ['❌', ' ', 'L'] := by
  simp only [lineItemIssue] at h
  split at h
  · split at h
    · cases h
      exact itemIssue_chain_take3 _ _ _
    · exact absurd h (by simp)
  · exact absurd h (by simp)

theorem mem_itemIssues_take3 {d : ExtractedRecord} {t : String}
    (h : t ∈ itemIssues d) : t.data.take 3 = ['❌', ' ', 'L'] := by
  rw [itemIssues, List.mem_filterMap] at h
  obtain ⟨it, -, hit⟩ := h
  exact lineItemIssue_take3 it t hit

theorem count_itemIssues_eq_zero (d : ExtractedRecord) (t : String)
    (ht : t.data.take 3 ≠ ['❌', ' ', 'L']) : List.count t (itemIssues d) = 0 :=
  List.count_eq_zero.mpr fun hm => ht (mem_itemIssues_take3 hm)

theorem count_invoiceIssues_eq_zero (d : ExtractedRecord) (t : String)
    (ht : t ≠ "❌ Invoice number not found") : List.count t (invoiceIssues d) = 0 := by
  rw [invoiceIssues]
  split
  · rfl
  · rw [List.count_eq_zero]
    simp [ht]

theorem amountIssues_of_falsy (o : Option String) (h : truthy o = false) :
    amountIssues o = ["❌ Total amount not found"] := by
  simp only [amountIssues, h]
  rfl

/-- C1: For every ExtractedRecord, the ValidationReport returned by
validate_extracted_data has the FAIL status (the string "FAIL ❌") if and
only if its issues list is non-empty, and the PASS status ("PASS ✅")
otherwise; the status is a function of the issues alone, so the contents of
the warnings list never change it. -/
theorem c1_status_iff_issues (d d' : ExtractedRecord)
    (h : (validate_extracted_data d).issues = (validate_extracted_data d').issues) :
    ((validate_extracted_data d).status = "FAIL ❌"
        ↔ (validate_extracted_data d).issues ≠ [])
    ∧ ((validate_extracted_data d).status = "PASS ✅"
        ↔ (validate_extracted_data d).issues = [])
    ∧ (validate_extracted_data d).status = (validate_extracted_data d').status := by
  have hne : ("PASS ✅" : String) ≠ "FAIL ❌" := by decide
  refine ⟨?_, ?_, ?_⟩
  · rw [validate_status_eq d]
    rcases hI : (validate_extracted_data d).issues with - | ⟨a, l⟩
    · simp [hne]
    · simp [Ne.symm hne]
  · rw [validate_status_eq d]
    rcases hI : (validate_extracted_data d).issues with - | ⟨a, l⟩
    · simp
    · simp [hne]
  · rw [validate_status_eq d, validate_status_eq d', h]

theorem c1_witness :
    ((validate_extracted_data (allNullRecord "")).status = "FAIL ❌"
        ↔ (validate_extracted_data (allNullRecord "")).issues ≠ [])
    ∧ ((validate_extracted_data (allNullRecord "")).status = "PASS ✅"
        ↔ (validate_extracted_data (allNullRecord "")).issues = [])
    ∧ (validate_extracted_data (allNullRecord "")).status
        = (validate_extracted_data (allNullRecord "")).status :=
  c1_status_iff_issues (allNullRecord "") (allNullRecord "") rfl

/-- C7 (delegated strategy modelled from the spec, which is its only source
in this repository): every delegated-extraction failure is converted to an
all-null ExtractedRecord carrying a descriptive preview — never an
exception, the model being total — and validating such an all-null record
yields status FAIL with exactly the invoice-number and total-amount issues
and the date/sender/receiver warnings. -/
theorem c7_delegated_failure (e : String) (describe : String → String) (p : String) :
    delegated_extract (Except.error e) describe = allNullRecord (describe e)
    ∧ (validate_extracted_data (allNullRecord p)).status = "FAIL ❌"
    ∧ (validate_extracted_data (allNullRecord p)).issues
        = ["❌ Invoice number not found", "❌ Total amount not found"]
    ∧ (validate_extracted_data (allNullRecord p)).warnings
        = ["⚠️  Date not detected — may be missing or in unusual format",
           "⚠️  Sender/Shipper not found", "⚠️  Receiver/Consignee not found"] :=
  ⟨rfl, rfl, rfl, rfl⟩

/-- C10: validate_extracted_data treats an empty-string value in any of the
five key fields exactly as if the field were missing: the report is the one
of the record with that field set to none, and the corresponding issue or
warning is raised (so the field is also not counted in the field_coverage
numerator, the reports being equal). -/
theorem c10_empty_string_as_missing (d : ExtractedRecord) :
    (d.invoice_number = some "" →
      validate_extracted_data d
          = validate_extracted_data { d with invoice_number := none }
        ∧ "❌ Invoice number not found" ∈ (validate_extracted_data d).issues)
    ∧ (d.date = some "" →
      validate_extracted_data d = validate_extracted_data { d with date := none }
        ∧ "⚠️  Date not detected — may be missing or in unusual format"
            ∈ (validate_extracted_data d).warnings)
    ∧ (d.sender = some "" →
      validate_extracted_data d = validate_extracted_data { d with sender := none }
        ∧ "⚠️  Sender/Shipper not found" ∈ (validate_extracted_data d).warnings)
    ∧ (d.receiver = some "" →
      validate_extracted_data d = validate_extracted_data { d with receiver := none }
        ∧ "⚠️  Receiver/Consignee not found" ∈ (validate_extracted_data d).warnings)
    ∧ (d.total_amount = some "" →
      validate_extracted_data d
          = validate_extracted_data { d with total_amount := none }
        ∧ "❌ Total amount not found" ∈ (validate_extracted_data d).issues) := by
  obtain ⟨inv, dt, sn, rc, tw, ta, cur, its, tn, pv⟩ := d
  refine ⟨fun h => ?_, fun h => ?_, fun h => ?_, fun h => ?_, fun h => ?_⟩ <;>
    (try subst h) <;>
    refine ⟨rfl, ?_⟩ <;>
    simp [validate_extracted_data, invoiceIssues, amountIssues, warningList, truthy]

theorem c10_witness :
    validate_extracted_data { allNullRecord "w" with invoice_number := some "" }
        = validate_extracted_data
            { { allNullRecord "w" with invoice_number := some "" } with
                invoice_number := none }
    ∧ "❌ Invoice number not found"
        ∈ (validate_extracted_data
            { allNullRecord "w" with invoice_number := some "" }).issues :=
  (c10_empty_string_as_missing
    { allNullRecord "w" with invoice_number := some "" }).1 rfl

/-- Counterexample to C2 as stated: with `total_amount` present but equal to
the empty string — a present, non-numeric value — the validator raises the
"Total amount not found" issue rather than the "not a valid number" issue
the claim requires for present non-numeric values. -/
theorem c2_counterexample :
    ({ allNullRecord "" with total_amount := some "" } : ExtractedRecord).total_amount
        = some ""
    ∧ parseFloat "" = none
    ∧ (validate_extracted_data
        { allNullRecord "" with total_amount := some "" }).issues
        = ["❌ Invoice number not found", "❌ Total amount not found"]
    ∧ "❌ Total amount is not a valid number"
        ∉ (validate_extracted_data
            { allNullRecord "" with total_amount := some "" }).issues := by
  refine ⟨rfl, rfl, rfl, ?_⟩
  decide

theorem mem_issues_iff_mem_amount (d : ExtractedRecord) (t : String)
    (ht1 : t ≠ "❌ Invoice number not found")
    (ht2 : t.data.take 3 ≠ ['❌', ' ', 'L']) :
    (t ∈ (validate_extracted_data d).issues ↔ t ∈ amountIssues d.total_amount) := by
  rw [validate_issues_decomp, List.mem_append, List.mem_append]
  constructor
  · rintro ((h | h) | h)
    · exfalso
      revert h
      rw [invoiceIssues]
      split <;> simp [ht1]
    · exact h
    · exact absurd (mem_itemIssues_take3 h) ht2
  · exact fun h => Or.inl (Or.inr h)

/-- C2 amended: the validator raises the "Total amount not found" issue
exactly when total_amount is missing or empty (Python falsy); when it is
present and non-empty it is parsed as a decimal number, the "not a valid
number" issue is raised exactly when parsing fails, and the "zero or
negative — suspicious" issue exactly when it parses to a value ≤ 0; in the
missing-or-empty case the status is FAIL and the issues contain exactly one
"Total amount not found" entry. -/
theorem c2_amount_validation (d : ExtractedRecord) :
    (truthy d.total_amount = false →
      List.count "❌ Total amount not found" (validate_extracted_data d).issues = 1
      ∧ (validate_extracted_data d).status = "FAIL ❌")
    ∧ (∀ s : String, d.total_amount = some s → s ≠ "" →
      (("❌ Total amount is not a valid number" ∈ (validate_extracted_data d).issues
          ↔ parseFloat s = none)
      ∧ ("❌ Total amount is zero or negative — suspicious"
            ∈ (validate_extracted_data d).issues
          ↔ ∃ v, parseFloat s = some v ∧ v ≤ 0))) := by
  constructor
  · intro h
    constructor
    · rw [validate_issues_decomp, List.count_append, List.count_append,
        amountIssues_of_falsy _ h,
        count_invoiceIssues_eq_zero d _ (by decide),
        count_itemIssues_eq_zero d _ (by decide)]
      rfl
    · rw [validate_status_eq d, validate_issues_decomp,
        amountIssues_of_falsy _ h]
      simp
  · intro s hs hne
    have htr : truthy (some s) = true := by simpa [truthy] using hne
    have hdec : amountIssues d.total_amount
        = match parseFloat s with
          | some v =>
            if v ≤ 0 then ["❌ Total amount is zero or negative — suspicious"]
            else []
          | none => ["❌ Total amount is not a valid number"] := by
      rw [hs]
      simp [amountIssues, htr]
    rw [mem_issues_iff_mem_amount d _ (by decide) (by decide),
      mem_issues_iff_mem_amount d _ (by decide) (by decide), hdec]
    rcases hp : parseFloat s with - | v
    · simp
    · by_cases hv : v ≤ 0
      · simp [hv]
      · simp [hv]

theorem c2_witness :
    (List.count "❌ Total amount not found"
        (validate_extracted_data (allNullRecord "")).issues = 1
      ∧ (validate_extracted_data (allNullRecord "")).status = "FAIL ❌")
    ∧ (("❌ Total amount is not a valid number"
          ∈ (validate_extracted_data
              { allNullRecord "" with total_amount := some "-5" }).issues
        ↔ parseFloat "-5" = none)
      ∧ ("❌ Total amount is zero or negative — suspicious"
          ∈ (validate_extracted_data
              { allNullRecord "" with total_amount := some "-5" }).issues
        ↔ ∃ v, parseFloat "-5" = some v ∧ v ≤ 0)) :=
  ⟨(c2_amount_validation (allNullRecord "")).1 (by decide),
   (c2_amount_validation { allNullRecord "" with total_amount := some "-5" }).2
     "-5" rfl (by decide)⟩

theorem lineItemCheckE_of_inRange (it : LineItem)
    (h : |it.quantity| < floatOverflowBound) :
    lineItemCheckE it = Except.ok (lineItemIssue it) := by
  unfold lineItemCheckE lineItemIssue floatOfInt
  rw [if_neg (not_le.mpr h)]
  cases hu : parseFloat it.unit_price <;> cases hl : parseFloat it.line_total <;> rfl

theorem itemIssuesE_of_inRange (l : List LineItem)
    (h : ∀ it ∈ l, |it.quantity| < floatOverflowBound) :
    itemIssuesE l = Except.ok (l.filterMap lineItemIssue) := by
  induction l with
  | nil => rfl
  | cons it rest ih =>
    cases hli : lineItemIssue it <;>
      simp [itemIssuesE, lineItemCheckE_of_inRange it (h it (by simp)), hli,
        ih (fun x hx => h x (by simp [hx])), List.filterMap_cons, Except.map]

theorem validateE_of_inRange (d : ExtractedRecord)
    (h : ∀ it ∈ d.items, |it.quantity| < floatOverflowBound) :
    validate_extracted_dataE d = Except.ok (validate_extracted_data d) := by
  unfold validate_extracted_dataE validate_extracted_data
  rw [itemIssuesE_of_inRange d.items h]
  rfl

set_option exponentiation.threshold 1100 in
set_option maxRecDepth 8000 in
/-- C3 (code bug): for line items whose integer quantity is inside the
double range, an issue is raised exactly when
|quantity·unit_price − line_total| > 0.5 and an unparseable unit_price or
line_total is silently skipped, as the claim states; but for a quantity at
or beyond the double range — reachable, since the item pattern's quantity
group is unbounded — `float(item["quantity"])` raises an OverflowError that
`except (ValueError, KeyError)` does not catch, so validation crashes
instead of skipping the item. -/
theorem c3_line_item_overflow :
    (∀ it : LineItem, ∀ a b : ℚ, |it.quantity| < floatOverflowBound →
        parseFloat it.unit_price = some a → parseFloat it.line_total = some b →
        ((∃ s, lineItemCheckE it = Except.ok (some s))
          ↔ |(it.quantity : ℚ) * a - b| > 1 / 2))
    ∧ (∀ it : LineItem, |it.quantity| < floatOverflowBound →
        parseFloat it.unit_price = none ∨ parseFloat it.line_total = none →
        lineItemCheckE it = Except.ok none)
    ∧ (∀ d : ExtractedRecord,
        (∀ it ∈ d.items, |it.quantity| < floatOverflowBound) →
        validate_extracted_dataE d = Except.ok (validate_extracted_data d))
    ∧ lineItemCheckE ⟨"Abc", ((10 ^ 350 : Nat) : Int), "1", "1"⟩
        = Except.error "OverflowError: int too large to convert to float"
    ∧ validate_extracted_dataE
        { allNullRecord "" with items := [⟨"Abc", ((10 ^ 350 : Nat) : Int), "1", "1"⟩] }
        = Except.error "OverflowError: int too large to convert to float" := by
  refine ⟨?_, ?_, validateE_of_inRange, by decide, by decide⟩
  · intro it a b hq hu hl
    rw [lineItemCheckE_of_inRange it hq]
    simp only [lineItemIssue, hu, hl]
    by_cases h : |(it.quantity : ℚ) * a - b| > 1 / 2
    · simp [h]
    · simp [h]
  · intro it hq h
    rw [lineItemCheckE_of_inRange it hq]
    rcases h with h | h
    · simp [lineItemIssue, h]
    · rcases hu : parseFloat it.unit_price with - | u
      · simp [lineItemIssue, hu]
      · simp [lineItemIssue, hu, h]

set_option exponentiation.threshold 1100 in
set_option maxRecDepth 8000 in
theorem c3_witness :
    ((∃ s, lineItemCheckE ⟨"x", 2, "3", "6"⟩ = Except.ok (some s))
      ↔ |((2 : Int) : ℚ) * 3 - 6| > 1 / 2) :=
  c3_line_item_overflow.1 ⟨"x", 2, "3", "6"⟩ 3 6 (by decide) (by decide) (by decide)

/-- Counterexample to C4 as stated: a record whose invoice_number is the
empty string has one non-null key field, yet the field_coverage numerator
is 0 — the code counts Python-truthy values, not non-null ones. -/
theorem c4_counterexample :
    List.countP Option.isSome
        [({ allNullRecord "" with invoice_number := some "" } : ExtractedRecord).invoice_number,
         ({ allNullRecord "" with invoice_number := some "" } : ExtractedRecord).date,
         ({ allNullRecord "" with invoice_number := some "" } : ExtractedRecord).sender,
         ({ allNullRecord "" with invoice_number := some "" } : ExtractedRecord).receiver,
         ({ allNullRecord "" with invoice_number := some "" } : ExtractedRecord).total_amount] = 1
    ∧ (validate_extracted_data
        { allNullRecord "" with invoice_number := some "" }).field_coverage
        = "0/5 key fields extracted" := by decide

/-- C4 amended: the field_coverage numerator equals the count of non-null
AND non-empty (Python-truthy) values among exactly the five key fields,
and is always in [0,5]. -/
theorem c4_field_coverage (d : ExtractedRecord) :
    (validate_extracted_data d).field_coverage
        = toString (keyFieldCount d) ++ "/5 key fields extracted"
    ∧ keyFieldCount d ≤ 5 :=
  ⟨rfl, List.countP_le_length _⟩

theorem processE_eq (read_pdf : String → String) (source : String)
    (is_pdf : Bool) (now : String) :
    process_invoiceE read_pdf source is_pdf now
      = (validate_extracted_dataE
          (parse_invoice (if is_pdf then read_pdf source else source))).map
          fun validation =>
            { metadata := { processed_at := now
                            source_type := if is_pdf then "PDF" else "Text" }
              extracted_data := parse_invoice (if is_pdf then read_pdf source else source)
              validation_report := validation } := rfl

set_option exponentiation.threshold 1100 in
set_option maxRecDepth 8000 in
/-- C6 (code bug): the pipeline is NOT exception-free on all text inputs:
on `overflowText` the extractor parses a single item with the 350-digit
quantity 10^350 − 1, whose int-to-float conversion inside
validate_extracted_data raises an OverflowError that
`except (ValueError, KeyError)` does not catch, so process_invoice raises
instead of returning a ResultEnvelope.  Whenever every parsed quantity is
below the overflow bound, the pipeline does return the envelope of
metadata, extracted record and validation report, as the claim and spec §7
intend. -/
theorem c6_pipeline_crash :
    (parse_invoice overflowText).items = [⟨"Abc", ((10 ^ 350 - 1 : Nat) : Int), "1", "1"⟩]
    ∧ floatOverflowBound ≤ |((10 ^ 350 - 1 : Nat) : Int)|
    ∧ process_invoiceE id overflowText false "2024-02-20T00:00:00"
        = Except.error "OverflowError: int too large to convert to float"
    ∧ (∀ (read_pdf : String → String) (text now : String),
        (∀ it ∈ (parse_invoice text).items, |it.quantity| < floatOverflowBound) →
        process_invoiceE read_pdf text false now
          = Except.ok { metadata := { processed_at := now, source_type := "Text" }
                        extracted_data := parse_invoice text
                        validation_report :=
                          validate_extracted_data (parse_invoice text) }) := by
  refine ⟨by decide, by decide, by decide, ?_⟩
  intro read_pdf text now h
  have he : (if false = true then read_pdf text else text) = text := rfl
  rw [processE_eq, he, validateE_of_inRange (parse_invoice text) h]
  rfl

set_option maxRecDepth 8000 in
theorem c6_witness :
    process_invoiceE id "hi" false "t"
      = Except.ok { metadata := { processed_at := "t", source_type := "Text" }
                    extracted_data := parse_invoice "hi"
                    validation_report :=
                      validate_extracted_data (parse_invoice "hi") } :=
  c6_pipeline_crash.2.2.2 id "hi" "t" (by decide)

/-- Counterexample to C9 as stated: for a text-kind invocation the
source_type is the capitalized "Text", not the uppercase "TEXT" the claim
requires. -/
theorem c9_counterexample :
    (process_invoice id "x" false "2024-02-20T00:00:00").metadata.source_type
        = "Text"
    ∧ ("Text" : String) ≠ "TEXT" := ⟨rfl, by decide⟩

/-- C9 amended: metadata.source_type is "PDF" for PDF-kind invocations and
the capitalized (not uppercased) "Text" for text-kind ones, and
processed_at is exactly the clock value supplied at envelope-construction
time. -/
theorem c9_metadata (read_pdf : String → String) (source : String)
    (is_pdf : Bool) (now : String) :
    (process_invoice read_pdf source is_pdf now).metadata.processed_at = now
    ∧ (process_invoice read_pdf source is_pdf now).metadata.source_type
        = (if is_pdf then "PDF" else "Text") := ⟨rfl, rfl⟩

/-- A 301-character text, exceeding the preview cut-off by one. -/
def longText : String := String.mk (List.replicate 301 '.')

set_option maxRecDepth 8000 in
/-- Counterexample to C8 as stated: for a 301-character text the preview is
the first 300 characters plus "...", not the first 300 characters. -/
theorem c8_counterexample :
    longText.length = 301
    ∧ (parse_invoice longText).raw_text_preview
        ≠ String.mk (longText.data.take 300) := by
  refine ⟨by decide, ?_⟩
  decide

/-- C8 amended: the raw_text_preview equals the first 300 characters of the
source text followed by "..." when the text is longer than 300 characters,
and the whole text otherwise. -/
theorem c8_preview (text : String) :
    (parse_invoice text).raw_text_preview
      = if text.length > 300 then String.mk (text.data.take 300) ++ "..." else text := rfl

/-- The record the deterministic extractor produces on `sample_invoice`
(verified below): note only two line items — the third invoice row,
"Safety Gloves (box)", contains parentheses, which the item pattern's
description class `[A-Za-z0-9\s\-]` excludes, so that row never matches. -/
def sampleRecord : ExtractedRecord :=
  { invoice_number := some "INV-2024-00892"
    date := some "February 20, 2024"
    sender := some "ABC Warehousing Corp."
    receiver := some "XYZ Retail Store"
    total_weight := some "45.5 kg"
    total_amount := some "9500.00"
    currency := some "PHP"
    items := [⟨"Industrial Fan Motor", 2, "1500.00", "3000.00"⟩,
      ⟨"Conveyor Belt Segment", 5, "800.00", "4000.00"⟩]
    tracking_number := some "TRK-PH-44821"
    raw_text_preview := String.mk (sample_invoice.data.take 300) ++ "..." }

set_option maxRecDepth 8000 in
/-- Counterexample to C5 as stated: on the repository's sample invoice the
deterministic extractor yields exactly 2 line items, not the 3 the claim
requires (the parenthesized "(box)" row cannot match the item pattern). -/
theorem c5_counterexample :
    (parse_invoice sample_invoice).items.length = 2 ∧ (2 : Nat) ≠ 3 := by
  refine ⟨?_, by decide⟩
  decide

set_option maxRecDepth 8000 in
/-- C5 amended: on the repository's sample invoice the deterministic
pipeline yields invoice_number "INV-2024-00892", tracking_number
"TRK-PH-44821", total_weight "45.5 kg", total_amount "9500.00" (thousands
separator stripped), currency "PHP", exactly 2 line items, the PASS status
and field_coverage "5/5 key fields extracted". -/
theorem c5_sample_pipeline :
    parse_invoice sample_invoice = sampleRecord
    ∧ validate_extracted_data (parse_invoice sample_invoice)
        = { status := "PASS ✅", issues := [], warnings := [],
            field_coverage := "5/5 key fields extracted" } := by
  have h : parse_invoice sample_invoice = sampleRecord := by decide
  have h2 : validate_extracted_data sampleRecord
      = { status := "PASS ✅", issues := [], warnings := [],
          field_coverage := "5/5 key fields extracted" } := by decide
  exact ⟨h, by rw [h]; exact h2⟩
